import Mathlib

/-!
Shallow embedding of the resource-registry and transform/state-binding core of
`SceneManager.cpp` (CS-330 scene manager): the fixed-slot texture registry, the
material registry, the shader uniform state pushed to the shading stage, the
light configuration, and the model-matrix composition.

Conventions of the embedding:
* `m_textureIDs` is a fixed array of 16 `TEXTURE_ID` entries of which the first
  `m_loadedTextures` are populated, in load order.  We model the populated
  prefix as a `List TEXTURE_ID`; `m_loadedTextures` is its length.  The C++
  array has capacity 16 and no code path checks the bound before writing at
  index `m_loadedTextures`.
* GPU texture-object allocation (`glGenTextures`) and release
  (`glDeleteTextures`) are recorded as an explicit call trace so that the
  destroy path can be inspected.
* The shader uniform sink (`ShaderManager`) is modelled as a record of the
  named uniforms this core pushes; `set...Value` calls are field updates.
  Scalar uniform values are rationals (all literals in the source are exact
  decimals); the model matrix, which involves trigonometry, lives in a
  separate real-valued section.
* `stbi_load` is external: a `Load` call receives its decode result as
  `Option (width, height, channels)`, and the fresh GL texture name as `newID`.
-/

/-- One texture slot: the lookup tag and the GPU texture handle
(struct `TEXTURE_ID` in `SceneManager.h`, fields `tag` and `ID`). -/
structure TEXTURE_ID where
  tag : String
  ID : Int
deriving DecidableEq, Repr

/-- The texture registry state: the populated prefix (in load order) of the
16-entry `m_textureIDs` array.  `m_loadedTextures` is `slots.length`. -/
structure TexRegistry where
  slots : List TEXTURE_ID
deriving DecidableEq, Repr

/-- GPU texture-object calls issued by the registry, as far as allocation and
release of texture objects is concerned. -/
inductive GLCall where
  | genTextures (n : Nat)
  | deleteTextures (n : Nat)
deriving DecidableEq, Repr

/-- Decode result handed back by `stbi_load`: `none` on failure, otherwise
width, height and channel count. -/
abbrev ImageData := Option (Nat × Nat × Nat)

/-- One `CreateGLTexture` call: the decode result of its file, the tag, and
the fresh GL texture name `glGenTextures` would hand out. -/
abbrev LoadOp := ImageData × String × Int

/-- `SceneManager::CreateGLTexture`: on decode failure return `false` with the
registry untouched; on success allocate one texture object, and if the channel
count is 3 or 4 upload the pixels and append the slot
`(tag, textureID)` at index `m_loadedTextures`, incrementing the count;
any other channel count returns `false` without registering a slot
(the texture object allocated before the channel check is leaked, which the
trace records). -/
def createGLTexture (img : ImageData) (tag : String) (newID : Int)
    (r : TexRegistry) : List GLCall × Bool × TexRegistry :=
  match img with
  | some (_width, _height, colorChannels) =>
    if colorChannels = 3 then
      ([GLCall.genTextures 1], true, ⟨r.slots ++ [⟨tag, newID⟩]⟩)
    else if colorChannels = 4 then
      ([GLCall.genTextures 1], true, ⟨r.slots ++ [⟨tag, newID⟩]⟩)
    else
      ([GLCall.genTextures 1], false, r)
  | none => ([], false, r)

/-- Run a sequence of `CreateGLTexture` calls against the registry. -/
def runLoads : List LoadOp → TexRegistry → TexRegistry
  | [], r => r
  | (img, tag, newID) :: rest, r => runLoads rest (createGLTexture img tag newID r).2.2

/-- Whether one `CreateGLTexture` call succeeds (decode succeeded and the
channel count is 3 or 4). -/
def loadSucceeds : LoadOp → Bool
  | (none, _, _) => false
  | (some (_, _, ch), _, _) =>
    if ch = 3 then true else if ch = 4 then true else false

/-- The number of successful loads in a sequence of `CreateGLTexture` calls. -/
def countSuccessfulLoads (ops : List LoadOp) : Nat :=
  (ops.filter loadSucceeds).length

/-- `SceneManager::DestroyGLTextures`: for each populated slot `i` the code
executes `glGenTextures(1, &m_textureIDs[i].ID)` — it allocates a fresh
texture object and stores the fresh name into the slot — and it never resets
`m_loadedTextures`.  `names i` is the fresh name `glGenTextures` hands out for
slot `i`. -/
def destroyGLTextures (names : Nat → Int) (r : TexRegistry) :
    List GLCall × TexRegistry :=
  (List.replicate r.slots.length (GLCall.genTextures 1),
   ⟨r.slots.enum.map (fun p => ⟨p.2.tag, names p.1⟩)⟩)

/-- The loop of `SceneManager::FindTextureID`: scan the populated slots from
index 0, stopping at the first slot whose tag compares equal; return its `ID`,
or the initial value -1 if the scan runs off the end. -/
def findTextureIDLoop : List TEXTURE_ID → String → Int
  | [], _ => -1
  | t :: rest, tag => if t.tag = tag then t.ID else findTextureIDLoop rest tag

/-- `SceneManager::FindTextureID`. -/
def findTextureID (r : TexRegistry) (tag : String) : Int :=
  findTextureIDLoop r.slots tag

/-- The loop of `SceneManager::FindTextureSlot`: scan the populated slots,
stopping at the first slot whose tag compares equal; return its index
(`idx` carries the index of the head), or the initial value -1. -/
def findTextureSlotLoop : List TEXTURE_ID → String → Int → Int
  | [], _, _ => -1
  | t :: rest, tag, idx =>
    if t.tag = tag then idx else findTextureSlotLoop rest tag (idx + 1)

/-- `SceneManager::FindTextureSlot`. -/
def findTextureSlot (r : TexRegistry) (tag : String) : Int :=
  findTextureSlotLoop r.slots tag 0

/-- Material record (struct `OBJECT_MATERIAL`): diffuse color, specular
color, shininess, tag.  Color components are rationals. -/
structure OBJECT_MATERIAL where
  diffuseColor : ℚ × ℚ × ℚ
  specularColor : ℚ × ℚ × ℚ
  shininess : ℚ
  tag : String
deriving DecidableEq, Repr

/-- The loop of `SceneManager::FindMaterial`: scan the material list; at the
first tag match copy `diffuseColor`, `specularColor` and `shininess` (not the
tag) into the output parameter and stop; a non-matching scan leaves the output
parameter as it was. -/
def findMaterialLoop : List OBJECT_MATERIAL → String → OBJECT_MATERIAL → OBJECT_MATERIAL
  | [], _, out => out
  | m :: rest, tag, out =>
    if m.tag = tag then
      { out with diffuseColor := m.diffuseColor,
                 specularColor := m.specularColor,
                 shininess := m.shininess }
    else findMaterialLoop rest tag out

/-- `SceneManager::FindMaterial`: returns `false` immediately when the list is
empty; otherwise runs the scan loop and then — regardless of whether the loop
found a match — executes `return(true)` (the loop's `bFound` flag is computed
but never used for the return value). -/
def findMaterial (mats : List OBJECT_MATERIAL) (tag : String)
    (out : OBJECT_MATERIAL) : Bool × OBJECT_MATERIAL :=
  if mats.length = 0 then (false, out)
  else (true, findMaterialLoop mats tag out)

/-- The material `SceneManager::DefineObjectMaterials` pushes: white diffuse,
0.4 grey specular, shininess 32, tag `default`. -/
def whiteMat : OBJECT_MATERIAL :=
  { diffuseColor := (1, 1, 1)
    specularColor := (0.4, 0.4, 0.4)
    shininess := 32
    tag := "default" }

/-- `SceneManager::DefineObjectMaterials`: appends `whiteMat` to the material
list. -/
def defineObjectMaterials (mats : List OBJECT_MATERIAL) : List OBJECT_MATERIAL :=
  mats ++ [whiteMat]

/-- A default-constructed `OBJECT_MATERIAL` local, as in the stack variable of
`SceneManager::SetShaderMaterial` (`glm::vec3` zero-initializes; the
`shininess` float is indeterminate in C++ — the value chosen here is never
relied on). -/
def emptyMat : OBJECT_MATERIAL :=
  { diffuseColor := (0, 0, 0)
    specularColor := (0, 0, 0)
    shininess := 0
    tag := "" }

/-- The shader uniform state this core pushes to (`ShaderManager` uniform
sink): each field is one named uniform (or uniform family) the scene manager
writes. -/
structure ShaderState where
  bUseTexture : Bool
  objectColor : ℚ × ℚ × ℚ × ℚ
  textureSampler : Int
  uvScale : ℚ × ℚ
  materialDiffuseColor : ℚ × ℚ × ℚ
  materialSpecularColor : ℚ × ℚ × ℚ
  materialShininess : ℚ
  bUseLighting : Bool
  directionalActive : Bool
  spotActive : Bool
  pointActive : Nat → Bool
  directionalDirection : ℚ × ℚ × ℚ
  directionalAmbient : ℚ × ℚ × ℚ
  directionalDiffuse : ℚ × ℚ × ℚ
  directionalSpecular : ℚ × ℚ × ℚ
  point0Position : ℚ × ℚ × ℚ
  point0Ambient : ℚ × ℚ × ℚ
  point0Diffuse : ℚ × ℚ × ℚ
  point0Specular : ℚ × ℚ × ℚ

/-- A concrete shader state with everything zeroed / inactive, standing for
the uniform state before any call. -/
def initialShaderState : ShaderState where
  bUseTexture := false
  objectColor := (0, 0, 0, 0)
  textureSampler := 0
  uvScale := (1, 1)
  materialDiffuseColor := (0, 0, 0)
  materialSpecularColor := (0, 0, 0)
  materialShininess := 0
  bUseLighting := false
  directionalActive := false
  spotActive := false
  pointActive := fun _ => false
  directionalDirection := (0, 0, 0)
  directionalAmbient := (0, 0, 0)
  directionalDiffuse := (0, 0, 0)
  directionalSpecular := (0, 0, 0)
  point0Position := (0, 0, 0)
  point0Ambient := (0, 0, 0)
  point0Diffuse := (0, 0, 0)
  point0Specular := (0, 0, 0)

/-- `SceneManager::SetShaderColor`: pushes `bUseTexture = false` and the
`objectColor` vec4 built from the four component arguments. -/
def setShaderColor (red green blue alpha : ℚ) (s : ShaderState) : ShaderState :=
  { s with bUseTexture := false, objectColor := (red, green, blue, alpha) }

/-- `SceneManager::SetShaderTexture`: pushes `bUseTexture = true` and the
sampler uniform `objectTexture := FindTextureSlot(textureTag)`. -/
def setShaderTexture (r : TexRegistry) (textureTag : String)
    (s : ShaderState) : ShaderState :=
  { s with bUseTexture := true, textureSampler := findTextureSlot r textureTag }

/-- `SceneManager::SetTextureUVScale`: pushes the `UVscale` vec2. -/
def setTextureUVScale (u v : ℚ) (s : ShaderState) : ShaderState :=
  { s with uvScale := (u, v) }

/-- `SceneManager::SetShaderMaterial`: does nothing when the material list is
empty; otherwise calls `FindMaterial` with a default-constructed local
(`localInit` is that local's initial contents) and, when it returns `true`,
pushes the three material uniforms from the output parameter. -/
def setShaderMaterial (mats : List OBJECT_MATERIAL) (materialTag : String)
    (localInit : OBJECT_MATERIAL) (s : ShaderState) : ShaderState :=
  if mats.length > 0 then
    let res := findMaterial mats materialTag localInit
    if res.1 = true then
      { s with materialDiffuseColor := res.2.diffuseColor,
               materialSpecularColor := res.2.specularColor,
               materialShininess := res.2.shininess }
    else s
  else s

/-- `SceneManager::SetupSceneLights`: enables lighting, deactivates the spot
light, deactivates point lights 0..3 in a loop, then configures and activates
the directional light, then configures and activates point light 0. -/
def setupSceneLights (s : ShaderState) : ShaderState :=
  let s1 := { s with bUseLighting := true }
  let s2 := { s1 with spotActive := false }
  let s3 := (List.range 4).foldl
    (fun st i => { st with pointActive := Function.update st.pointActive i false }) s2
  let s4 := { s3 with
    directionalDirection := (-0.3, -1, -0.3)
    directionalAmbient := (0.2, 0.2, 0.2)
    directionalDiffuse := (0.5, 0.5, 0.5)
    directionalSpecular := (0.7, 0.7, 0.7)
    directionalActive := true }
  { s4 with
    point0Position := (0, 5, 1)
    point0Ambient := (0.1, 0.09, 0.08)
    point0Diffuse := (0.6, 0.5, 0.4)
    point0Specular := (0.4, 0.3, 0.2)
    pointActive := Function.update s4.pointActive 0 true }

/-! Model-matrix composition (`SceneManager::SetTransformations`).  glm's
matrices are column-major (`Result[col][row]`); the definitions below are the
corresponding mathematical matrices indexed row-first, over the reals (the
code's single-precision floats idealized as exact real arithmetic). -/

/-- A 4×4 real matrix, as glm's `mat4` (indexed row, column). -/
abbrev Mat4 := Matrix (Fin 4) (Fin 4) ℝ

/-- A real 3-vector, as glm's `vec3`. -/
abbrev Vec3R := ℝ × ℝ × ℝ

/-- `glm::radians`: degrees times π/180. -/
noncomputable def glmRadians (degrees : ℝ) : ℝ := degrees * (Real.pi / 180)

/-- `glm::normalize` on a `vec3`: divide by the Euclidean norm. -/
noncomputable def glmNormalize (v : Vec3R) : Vec3R :=
  let len := Real.sqrt (v.1 * v.1 + v.2.1 * v.2.1 + v.2.2 * v.2.2)
  (v.1 / len, v.2.1 / len, v.2.2 / len)

/-- `glm::scale(v)` (the one-argument overload applies the scale to the
identity): the diagonal matrix `diag(v.x, v.y, v.z, 1)`. -/
noncomputable def glmScale (v : Vec3R) : Mat4 :=
  !![v.1, 0, 0, 0;
     0, v.2.1, 0, 0;
     0, 0, v.2.2, 0;
     0, 0, 0, 1]

/-- `glm::translate(v)` (applied to the identity): identity with `v` in the
fourth column. -/
noncomputable def glmTranslate (v : Vec3R) : Mat4 :=
  !![1, 0, 0, v.1;
     0, 1, 0, v.2.1;
     0, 0, 1, v.2.2;
     0, 0, 0, 1]

/-- `glm::rotate(angle, axis)` (applied to the identity): normalize the axis,
then build the Rodrigues rotation matrix
`c·I + (1-c)·axis·axisᵀ + s·[axis]×` embedded in a 4×4. -/
noncomputable def glmRotate (angle : ℝ) (v : Vec3R) : Mat4 :=
  let c := Real.cos angle
  let s := Real.sin angle
  let a := glmNormalize v
  let x := a.1
  let y := a.2.1
  let z := a.2.2
  !![c + (1 - c) * x * x, (1 - c) * x * y - s * z, (1 - c) * x * z + s * y, 0;
     (1 - c) * x * y + s * z, c + (1 - c) * y * y, (1 - c) * y * z - s * x, 0;
     (1 - c) * x * z - s * y, (1 - c) * y * z + s * x, c + (1 - c) * z * z, 0;
     0, 0, 0, 1]

/-- `SceneManager::SetTransformations`: builds scale, the three axis
rotations from degree angles, and the translation, and pushes
`translation * rotationZ * rotationY * rotationX * scale` as the `model`
uniform. -/
noncomputable def setTransformations (scaleXYZ : Vec3R)
    (XrotationDegrees YrotationDegrees ZrotationDegrees : ℝ)
    (positionXYZ : Vec3R) : Mat4 :=
  let scale := glmScale scaleXYZ
  let rotationX := glmRotate (glmRadians XrotationDegrees) (1, 0, 0)
  let rotationY := glmRotate (glmRadians YrotationDegrees) (0, 1, 0)
  let rotationZ := glmRotate (glmRadians ZrotationDegrees) (0, 0, 1)
  let translation := glmTranslate positionXYZ
  translation * rotationZ * rotationY * rotationX * scale

/-- Canonical rotation about the x-axis by `t` radians, as the spec's
`RotateX` (embedded in a 4×4). -/
noncomputable def rotateXspec (t : ℝ) : Mat4 :=
  !![1, 0, 0, 0;
     0, Real.cos t, -Real.sin t, 0;
     0, Real.sin t, Real.cos t, 0;
     0, 0, 0, 1]

/-- Canonical rotation about the y-axis by `t` radians, as the spec's
`RotateY`. -/
noncomputable def rotateYspec (t : ℝ) : Mat4 :=
  !![Real.cos t, 0, Real.sin t, 0;
     0, 1, 0, 0;
     -Real.sin t, 0, Real.cos t, 0;
     0, 0, 0, 1]

/-- Canonical rotation about the z-axis by `t` radians, as the spec's
`RotateZ`. -/
noncomputable def rotateZspec (t : ℝ) : Mat4 :=
  !![Real.cos t, -Real.sin t, 0, 0;
     Real.sin t, Real.cos t, 0, 0;
     0, 0, 1, 0;
     0, 0, 0, 1]

/-! Theorems. -/

/-- Joint characterization of both scan loops: either no slot matches and both
return -1, or there is a first matching index `i`, the slot loop returns
`idx + i` and the ID loop returns slot `i`'s handle. -/
theorem findLoop_spec (tag : String) :
    ∀ (slots : List TEXTURE_ID) (idx : Int),
      (findTextureSlotLoop slots tag idx = -1 ∧ findTextureIDLoop slots tag = -1 ∧
        ∀ t ∈ slots, t.tag ≠ tag) ∨
      (∃ i : Fin slots.length,
        findTextureSlotLoop slots tag idx = idx + i.val ∧
        (slots.get i).tag = tag ∧
        (∀ j : Fin slots.length, j.val < i.val → (slots.get j).tag ≠ tag) ∧
        findTextureIDLoop slots tag = (slots.get i).ID) := by
  intro slots
  induction slots with
  | nil => intro idx; exact Or.inl ⟨rfl, rfl, by simp⟩
  | cons t rest ih =>
    intro idx
    by_cases h : t.tag = tag
    · refine Or.inr ⟨⟨0, by simp⟩, ?_, ?_, ?_, ?_⟩
      · simp [findTextureSlotLoop, h]
      · simpa using h
      · intro j hj; exact absurd hj (by simp)
      · simp [findTextureIDLoop, h]
    · rcases ih (idx + 1) with ⟨h1, h2, h3⟩ | ⟨i, h1, h2, h3, h4⟩
      · refine Or.inl ⟨?_, ?_, ?_⟩
        · simp [findTextureSlotLoop, h, h1]
        · simp [findTextureIDLoop, h, h2]
        · intro x hx
          rcases List.mem_cons.mp hx with rfl | hx
          · exact h
          · exact h3 x hx
      · refine Or.inr ⟨i.succ, ?_, ?_, ?_, ?_⟩
        · simp only [findTextureSlotLoop, h, if_false, h1, Fin.val_succ]
          push_cast
          ring
        · simpa using h2
        · intro j hj
          rcases j with ⟨jv, hjlt⟩
          cases jv with
          | zero => simpa using h
          | succ k =>
            have hk : k < i.val := by simpa using hj
            have := h3 ⟨k, by omega⟩ hk
            simpa using this
        · simp [findTextureIDLoop, h, h4]

/-- Claim C5: for every registry state (in particular every state reached by
successful loads) and every tag, `FindTextureSlot` returns -1 exactly when no
populated slot carries the tag, and otherwise returns the smallest index whose
slot carries the tag — so with distinct tags each tag resolves to its
insertion index, and a duplicated tag resolves to the lower index. -/
theorem C5_findSlot_first_match : ∀ (slots : List TEXTURE_ID) (tag : String),
    (findTextureSlot ⟨slots⟩ tag = -1 ↔ ∀ t ∈ slots, t.tag ≠ tag) ∧
    (∀ i : Fin slots.length, (slots.get i).tag = tag →
      (∀ j : Fin slots.length, j.val < i.val → (slots.get j).tag ≠ tag) →
      findTextureSlot ⟨slots⟩ tag = i.val) := by
  intro slots tag
  have hmain := findLoop_spec tag slots 0
  constructor
  · constructor
    · intro hneg
      rcases hmain with ⟨_, _, h3⟩ | ⟨i, h1, _, _, _⟩
      · exact h3
      · rw [findTextureSlot] at hneg
        rw [hneg] at h1
        omega
    · intro hnone
      rcases hmain with ⟨h1, _, _⟩ | ⟨i, _, h2, _, _⟩
      · exact h1
      · exact absurd h2 (hnone _ (slots.get_mem _ i.isLt))
  · intro i hi hmin
    rcases hmain with ⟨_, _, h3⟩ | ⟨i2, h1, h2, h3, _⟩
    · exact absurd hi (h3 _ (slots.get_mem _ i.isLt))
    · have hval : i2.val = i.val := by
        rcases Nat.lt_trichotomy i2.val i.val with hlt | heq | hgt
        · exact absurd h2 (hmin i2 hlt)
        · exact heq
        · exact absurd hi (h3 i hgt)
      rw [findTextureSlot, h1, hval]
      omega

/-- Witness for C5 at a concrete registry with a duplicated tag: the lower
index wins. -/
theorem C5_witness :
    findTextureSlot ⟨[⟨"a", 1⟩, ⟨"a", 2⟩]⟩ "a" = 0 := by
  have h := (C5_findSlot_first_match [⟨"a", 1⟩, ⟨"a", 2⟩] "a").2
    ⟨0, by decide⟩ rfl (fun j hj => absurd hj (by simp))
  simpa using h

/-- Claim C10: for every registry state and tag, `FindTextureID` and
`FindTextureSlot` agree: slot -1 forces ID -1, and slot `i ≥ 0` forces the ID
to be the handle stored in slot `i`. -/
theorem C10_find_agree : ∀ (slots : List TEXTURE_ID) (tag : String),
    (findTextureSlot ⟨slots⟩ tag = -1 → findTextureID ⟨slots⟩ tag = -1) ∧
    (∀ i : Fin slots.length, findTextureSlot ⟨slots⟩ tag = i.val →
      findTextureID ⟨slots⟩ tag = (slots.get i).ID) := by
  intro slots tag
  have hmain := findLoop_spec tag slots 0
  constructor
  · intro hneg
    rcases hmain with ⟨_, h2, _⟩ | ⟨i, h1, _, _, _⟩
    · exact h2
    · rw [findTextureSlot] at hneg
      rw [hneg] at h1
      omega
  · intro i hi
    rcases hmain with ⟨h1, _, _⟩ | ⟨i2, h1, _, _, h4⟩
    · rw [findTextureSlot] at hi
      rw [hi] at h1
      omega
    · rw [findTextureSlot] at hi
      rw [hi] at h1
      have hval : i2 = i := by
        apply Fin.ext
        omega
      rw [findTextureID, h4, hval]

/-- Witness for C10 at a concrete one-slot registry. -/
theorem C10_witness :
    findTextureID ⟨[⟨"a", 7⟩]⟩ "a" = 7 := by
  have h := (C10_find_agree [⟨"a", 7⟩] "a").2 ⟨0, by decide⟩ rfl
  simpa using h

/-- Claim C1 evaluation at the failing input: with the material list produced
by `DefineObjectMaterials` (one material tagged `default`) and a lookup for a
tag no stored material carries, `FindMaterial` still returns `found = true`
(while leaving the output material unmodified), because the final
`return(true)` ignores the loop's `bFound` flag. -/
theorem C1_eval :
    ((defineObjectMaterials []).any (fun m => m.tag == "missing")) = false ∧
    (findMaterial (defineObjectMaterials []) "missing" emptyMat).1 = true ∧
    (findMaterial (defineObjectMaterials []) "missing" emptyMat).2 = emptyMat :=
  ⟨rfl, rfl, rfl⟩

/-- Claim C9: with an empty material list, `SetShaderMaterial` pushes no
uniforms at all — the shader state is returned exactly as it was, whatever
the tag and whatever the local's initial contents. -/
theorem C9_empty_materials_no_push :
    ∀ (materialTag : String) (localInit : OBJECT_MATERIAL) (s : ShaderState),
      setShaderMaterial [] materialTag localInit s = s := by
  intro materialTag localInit s
  rfl

/-- Claim C7: flat-color and texture modes toggle one boolean —
`SetShaderColor` always pushes `bUseTexture = false`, `SetShaderTexture`
always pushes `bUseTexture = true` together with sampler index
`FindTextureSlot(tag)`; and after one successful load tagged `marbleFloor`
into an empty registry, `SetShaderTexture "marbleFloor"` pushes
`bUseTexture = true` with sampler index 0. -/
theorem C7_color_texture_exclusive :
    (∀ (red green blue alpha : ℚ) (s : ShaderState),
      (setShaderColor red green blue alpha s).bUseTexture = false) ∧
    (∀ (r : TexRegistry) (tag : String) (s : ShaderState),
      (setShaderTexture r tag s).bUseTexture = true ∧
      (setShaderTexture r tag s).textureSampler = findTextureSlot r tag) ∧
    (∀ s : ShaderState,
      (setShaderTexture
        (createGLTexture (some (512, 512, 3)) "marbleFloor" 1 ⟨[]⟩).2.2
        "marbleFloor" s).bUseTexture = true ∧
      (setShaderTexture
        (createGLTexture (some (512, 512, 3)) "marbleFloor" 1 ⟨[]⟩).2.2
        "marbleFloor" s).textureSampler = 0) := by
  refine ⟨fun _ _ _ _ _ => rfl, fun _ _ _ => ⟨rfl, rfl⟩, fun s => ⟨rfl, ?_⟩⟩
  rfl

/-- Claim C8: whenever `CreateGLTexture` fails — the image cannot be decoded,
or the channel count is neither 3 nor 4 — it returns `false` and the registry
(the slot count and every slot's tag and handle) is exactly as before. -/
theorem C8_failed_load_consumes_no_slot :
    (∀ (tag : String) (newID : Int) (r : TexRegistry),
      createGLTexture none tag newID r = ([], false, r)) ∧
    (∀ (w h ch : Nat) (tag : String) (newID : Int) (r : TexRegistry),
      ch ≠ 3 → ch ≠ 4 →
      (createGLTexture (some (w, h, ch)) tag newID r).2 = (false, r)) := by
  constructor
  · intro tag newID r
    rfl
  · intro w h ch tag newID r h3 h4
    simp [createGLTexture, h3, h4]

/-- Witness for C8 at a 2-channel image. -/
theorem C8_witness :
    (createGLTexture (some (8, 8, 2)) "x" 1 ⟨[]⟩).2 = (false, (⟨[]⟩ : TexRegistry)) :=
  C8_failed_load_consumes_no_slot.2 8 8 2 "x" 1 ⟨[]⟩ (by decide) (by decide)

/-- Length of the registry after a run of loads: the starting length plus the
number of successful loads — no code path checks the 16-slot capacity. -/
theorem runLoads_length : ∀ (ops : List LoadOp) (r : TexRegistry),
    (runLoads ops r).slots.length = r.slots.length + countSuccessfulLoads ops := by
  intro ops
  induction ops with
  | nil => intro r; simp [runLoads, countSuccessfulLoads]
  | cons op rest ih =>
    intro r
    obtain ⟨img, tag, newID⟩ := op
    match img with
    | none =>
      rw [runLoads, ih]
      simp [createGLTexture, countSuccessfulLoads, loadSucceeds, List.filter_cons]
    | some (w, h, ch) =>
      by_cases h3 : ch = 3
      · subst h3
        rw [runLoads, ih]
        simp [createGLTexture, countSuccessfulLoads, loadSucceeds, List.filter_cons]
        omega
      · by_cases h4 : ch = 4
        · subst h4
          rw [runLoads, ih]
          simp [createGLTexture, countSuccessfulLoads, loadSucceeds, List.filter_cons]
          omega
        · rw [runLoads, ih]
          simp [createGLTexture, countSuccessfulLoads, loadSucceeds, List.filter_cons,
            h3, h4]

/-- Counterexample to claim C2 as stated: a sequence of 17 successful loads
drives `m_loadedTextures` to 17, exceeding the fixed capacity of 16 — the
code never checks the bound. -/
theorem C2_counterexample :
    16 < (runLoads (List.replicate 17 (some (2, 2, 3), "t", 1)) ⟨[]⟩).slots.length := by
  decide

/-- Claim C2 as amended: `m_loadedTextures` equals the number of successful
loads (starting from the fresh registry), so it stays within the capacity of
16 exactly as long as at most 16 loads succeed; nothing in the code enforces
the bound beyond that. -/
theorem C2_amended_capacity : ∀ ops : List LoadOp,
    (runLoads ops ⟨[]⟩).slots.length = countSuccessfulLoads ops ∧
    (countSuccessfulLoads ops ≤ 16 → (runLoads ops ⟨[]⟩).slots.length ≤ 16) := by
  intro ops
  have h := runLoads_length ops ⟨[]⟩
  simp only [List.length_nil, Nat.zero_add] at h
  exact ⟨h, fun hle => h ▸ hle⟩

/-- Witness for the amended C2 at a single successful load. -/
theorem C2_amended_witness :
    (runLoads [(some (2, 2, 3), "marbleFloor", 1)] ⟨[]⟩).slots.length ≤ 16 :=
  (C2_amended_capacity [(some (2, 2, 3), "marbleFloor", 1)]).2 (by decide)

/-- Claim C3 evaluation at the failing input (a registry holding one loaded
texture): `DestroyGLTextures` issues a `glGenTextures` call — an allocation,
not a `glDeleteTextures` release — for the populated slot, and the populated
slot count stays 1 instead of dropping to 0. -/
theorem C3_eval :
    (destroyGLTextures (fun i => 100 + i) ⟨[⟨"marbleFloor", 5⟩]⟩).1 =
      [GLCall.genTextures 1] ∧
    (destroyGLTextures (fun i => 100 + i) ⟨[⟨"marbleFloor", 5⟩]⟩).2.slots.length = 1 :=
  ⟨rfl, rfl⟩

/-- Counterexample to claim C4 as stated: starting from the zeroed uniform
state, `SetupSceneLights` leaves point light 0 active — the routine
re-activates `pointLights[0].bActive` after the defensive reset, so not all
four point lights end up inactive. -/
theorem C4_counterexample :
    (setupSceneLights initialShaderState).pointActive 0 = true := by
  decide

/-- Claim C4 as amended: after `SetupSceneLights`, whatever the prior uniform
state, the spot light and point lights 1–3 are inactive, while the
directional light and point light 0 are active (and lighting is enabled). -/
theorem C4_amended_lights : ∀ s : ShaderState,
    (setupSceneLights s).pointActive 0 = true ∧
    (setupSceneLights s).pointActive 1 = false ∧
    (setupSceneLights s).pointActive 2 = false ∧
    (setupSceneLights s).pointActive 3 = false ∧
    (setupSceneLights s).spotActive = false ∧
    (setupSceneLights s).directionalActive = true ∧
    (setupSceneLights s).bUseLighting = true := by
  intro s
  simp [setupSceneLights, List.range_succ, Function.update]

/-- glm's axis-angle rotation about the unit x-axis is the canonical x-axis
rotation matrix. -/
theorem glmRotate_unitX (t : ℝ) : glmRotate t (1, 0, 0) = rotateXspec t := by
  simp only [glmRotate, glmNormalize, rotateXspec]
  ext i j
  fin_cases i <;> fin_cases j <;> simp [Real.sqrt_one]

/-- glm's axis-angle rotation about the unit y-axis is the canonical y-axis
rotation matrix. -/
theorem glmRotate_unitY (t : ℝ) : glmRotate t (0, 1, 0) = rotateYspec t := by
  simp only [glmRotate, glmNormalize, rotateYspec]
  ext i j
  fin_cases i <;> fin_cases j <;> simp [Real.sqrt_one]

/-- glm's axis-angle rotation about the unit z-axis is the canonical z-axis
rotation matrix. -/
theorem glmRotate_unitZ (t : ℝ) : glmRotate t (0, 0, 1) = rotateZspec t := by
  simp only [glmRotate, glmNormalize, rotateZspec]
  ext i j
  fin_cases i <;> fin_cases j <;> simp [Real.sqrt_one]

/-- Claim C6: for every scale, rotation angles in degrees and position, the
model matrix `SetTransformations` pushes equals
`Translate(position) * RotateZ(degToRad rz) * RotateY(degToRad ry) *
RotateX(degToRad rx) * Scale(scale)`, the rotations being about the canonical
unit axes with degrees converted to radians first. -/
theorem C6_model_matrix :
    ∀ (scaleXYZ : Vec3R) (xr yr zr : ℝ) (positionXYZ : Vec3R),
      setTransformations scaleXYZ xr yr zr positionXYZ =
        glmTranslate positionXYZ *
          rotateZspec (glmRadians zr) *
          rotateYspec (glmRadians yr) *
          rotateXspec (glmRadians xr) *
          glmScale scaleXYZ := by
  intro scaleXYZ xr yr zr positionXYZ
  simp only [setTransformations, glmRotate_unitX, glmRotate_unitY, glmRotate_unitZ]
